import Mathlib

/-!
Verification of the resilience-control primitives of the repository:
the `CircuitBreaker` class of
`lab5_nonfunctional_testing/compatibility/api_reliability/api_reliability_test.py`,
the `ResilientDataPipeline` retry / circuit-breaker logic of
`lab11_chaos_engineering/resilient_pipeline.py`, and the fault injectors and
chaos-monkey orchestrator of `lab11_chaos_engineering/chaos_framework.py`.

The Python code is shallowly embedded: methods become pure Lean functions on
explicit state records, wall-clock time is an explicit parameter (`now`),
randomness is an explicit draw parameter, and a raised exception is an explicit
outcome constructor.
-/

set_option autoImplicit false

namespace ApiReliability

/-- The `state` attribute of `CircuitBreaker`: `'CLOSED'`, `'OPEN'`, `'HALF_OPEN'`. -/
inductive CBState where
  | closed
  | opened
  | halfOpen
deriving DecidableEq, Repr

/-- The mutable attributes of the Python `CircuitBreaker` object
(`api_reliability_test.py`).  `last_failure_time` starts as `None`
and holds the wall-clock time of the most recent underlying failure. -/
structure CircuitBreaker where
  failure_threshold : Nat
  timeout : Int
  failures : Nat
  last_failure_time : Option Int
  state : CBState
deriving DecidableEq, Repr

/-- `CircuitBreaker.__init__(failure_threshold, timeout)`. -/
def CircuitBreaker.init (failure_threshold : Nat) (timeout : Int) : CircuitBreaker :=
  { failure_threshold := failure_threshold
    timeout := timeout
    failures := 0
    last_failure_time := none
    state := CBState.closed }

/-- The observable result of one `CircuitBreaker.call`:
`rejected` = the breaker raised `Exception("Circuit breaker is OPEN")` without
invoking the operation; `succeeded` = the operation was invoked and returned;
`failed` = the operation was invoked, raised, and the exception was re-raised. -/
inductive CallOutcome where
  | rejected
  | succeeded
  | failed
deriving DecidableEq, Repr

/-- The `try`/`except` body of `CircuitBreaker.call`: invoke the operation
(`opSucceeds` tells whether it returns or raises).  On success, state and
failure count are reset only from `HALF_OPEN`.  On an exception, `failures` is
incremented, `last_failure_time := now`, and the breaker opens once
`failures >= failure_threshold`; the exception is re-raised (`failed`). -/
def CircuitBreaker.attempt (cb : CircuitBreaker) (now : Int) (opSucceeds : Bool) :
    CallOutcome × CircuitBreaker :=
  if opSucceeds then
    if cb.state = CBState.halfOpen then
      (CallOutcome.succeeded, { cb with state := CBState.closed, failures := 0 })
    else
      (CallOutcome.succeeded, cb)
  else
    let f := cb.failures + 1
    let cb' := { cb with failures := f, last_failure_time := some now }
    if f ≥ cb.failure_threshold then
      (CallOutcome.failed, { cb' with state := CBState.opened })
    else
      (CallOutcome.failed, cb')

/-- `CircuitBreaker.call(func, ...)` at wall-clock time `now`.  In state `OPEN`
it transitions to `HALF_OPEN` when `now - last_failure_time > timeout` and
otherwise raises without invoking `func`.  (`last_failure_time` is always set
when the state is `OPEN` — the only transition into `OPEN` records it — so the
`getD 0` default is never consulted on reachable states.) -/
def CircuitBreaker.call (cb : CircuitBreaker) (now : Int) (opSucceeds : Bool) :
    CallOutcome × CircuitBreaker :=
  if cb.state = CBState.opened then
    if now - cb.last_failure_time.getD 0 > cb.timeout then
      CircuitBreaker.attempt { cb with state := CBState.halfOpen } now opSucceeds
    else
      (CallOutcome.rejected, cb)
  else
    CircuitBreaker.attempt cb now opSucceeds

/-- A breaker together with the number of times the guarded underlying
operation has actually been invoked (the test script's "call count"). -/
structure CBRun where
  cb : CircuitBreaker
  opCalls : Nat
deriving DecidableEq, Repr

/-- A fresh breaker that has never invoked its operation. -/
def CBRun.init (failure_threshold : Nat) (timeout : Int) : CBRun :=
  { cb := CircuitBreaker.init failure_threshold timeout, opCalls := 0 }

/-- One `call` through the breaker; the underlying operation is invoked exactly
when the breaker does not reject. -/
def CBRun.call (s : CBRun) (now : Int) (opSucceeds : Bool) : CallOutcome × CBRun :=
  let r := s.cb.call now opSucceeds
  (r.1, { cb := r.2, opCalls := s.opCalls + if r.1 = CallOutcome.rejected then 0 else 1 })

/-- A sequence of calls, each given by its wall-clock time and whether the
underlying operation would succeed if invoked. -/
def CBRun.run (s : CBRun) (trace : List (Int × Bool)) : CBRun :=
  trace.foldl (fun t c => (t.call c.1 c.2).2) s

/-- Unfolding of a run on a cons trace. -/
theorem CBRun.run_cons (s : CBRun) (c : Int × Bool) (rest : List (Int × Bool)) :
    s.run (c :: rest) = ((s.call c.1 c.2).2).run rest := rfl

/-- Invariant maintained while a breaker with threshold `t` is fed only failing
operations: either it is still counting (CLOSED, below threshold) or it has
tripped (OPEN, with a recorded last failure time); after `k` such calls it has
accumulated at least `min k t` failures. -/
def FailInv (t : Nat) (T : Int) (k : Nat) (s : CBRun) : Prop :=
  s.cb.failure_threshold = t ∧ s.cb.timeout = T ∧
  min k t ≤ s.cb.failures ∧
  ((s.cb.failures < t ∧ s.cb.state = CBState.closed) ∨
   (t ≤ s.cb.failures ∧ s.cb.state = CBState.opened ∧ s.cb.last_failure_time.isSome))

theorem failInv_step (t : Nat) (T : Int) (s : CBRun) (k : Nat) (now : Int)
    (h : FailInv t T k s) : FailInv t T (k + 1) ((s.call now false).2) := by
  obtain ⟨hth, hT, hmin, hcase⟩ := h
  unfold CBRun.call CircuitBreaker.call CircuitBreaker.attempt
  simp only [Bool.false_eq_true, if_false]
  rcases hcase with ⟨hlt, hst⟩ | ⟨hge, hst, hlft⟩
  · rw [if_neg (by rw [hst]; exact fun hc => CBState.noConfusion hc)]
    by_cases hf : s.cb.failures + 1 ≥ s.cb.failure_threshold
    · rw [if_pos hf]
      exact ⟨hth, hT, by show min (k + 1) t ≤ s.cb.failures + 1; omega,
        Or.inr ⟨by show t ≤ s.cb.failures + 1; omega, rfl, rfl⟩⟩
    · rw [if_neg hf]
      exact ⟨hth, hT, by show min (k + 1) t ≤ s.cb.failures + 1; omega,
        Or.inl ⟨by show s.cb.failures + 1 < t; omega, hst⟩⟩
  · rw [if_pos hst]
    by_cases hw : now - s.cb.last_failure_time.getD 0 > s.cb.timeout
    · rw [if_pos hw]
      rw [if_pos (by show s.cb.failures + 1 ≥ s.cb.failure_threshold; omega)]
      exact ⟨hth, hT, by show min (k + 1) t ≤ s.cb.failures + 1; omega,
        Or.inr ⟨by show t ≤ s.cb.failures + 1; omega, rfl, rfl⟩⟩
    · rw [if_neg hw]
      exact ⟨hth, hT, by show min (k + 1) t ≤ s.cb.failures; omega,
        Or.inr ⟨hge, hst, hlft⟩⟩

theorem failInv_run (t : Nat) (T : Int) (trace : List (Int × Bool))
    (hfail : ∀ c ∈ trace, c.2 = false) (s : CBRun) (k : Nat) (h : FailInv t T k s) :
    FailInv t T (k + trace.length) (s.run trace) := by
  induction trace generalizing s k with
  | nil => simpa using h
  | cons c rest ih =>
      have hc : c.2 = false := hfail c (List.mem_cons_self c rest)
      have h1 : FailInv t T (k + 1) ((s.call c.1 c.2).2) := by
        rw [hc]; exact failInv_step t T s k c.1 h
      have h2 := ih (fun d hd => hfail d (List.mem_cons_of_mem c hd)) _ _ h1
      rw [CBRun.run_cons]
      simpa [Nat.add_assoc, Nat.add_comm 1 rest.length] using h2

/-- **C1** (claim): for every circuit breaker created with
`failureThreshold = t` (`t ≥ 1`), after any sequence of `t` or more
consecutive failing calls through `call()`, the breaker's state is OPEN, and
the next call made while less than `resetTimeout` has elapsed since the last
failure is rejected — raising the circuit-open error — without invoking the
underlying operation (the invocation count is unchanged). -/
theorem circuit_breaker_trip (t : Nat) (T : Int) (trace : List (Int × Bool))
    (now lft : Int) (b : Bool)
    (ht : 1 ≤ t) (hlen : t ≤ trace.length)
    (hfail : ∀ c ∈ trace, c.2 = false)
    (hlft : ((CBRun.init t T).run trace).cb.last_failure_time = some lft)
    (hwin : now - lft < T) :
    ((CBRun.init t T).run trace).cb.state = CBState.opened ∧
    (((CBRun.init t T).run trace).call now b).1 = CallOutcome.rejected ∧
    (((CBRun.init t T).run trace).call now b).2.opCalls
      = ((CBRun.init t T).run trace).opCalls := by
  have h0 : FailInv t T 0 (CBRun.init t T) :=
    ⟨rfl, rfl, by show min 0 t ≤ 0; omega, Or.inl ⟨ht, rfl⟩⟩
  have hfin := failInv_run t T trace hfail _ 0 h0
  obtain ⟨hth, hT, hmin, hcase⟩ := hfin
  have hopen : ((CBRun.init t T).run trace).cb.state = CBState.opened := by
    rcases hcase with ⟨hlt, _⟩ | ⟨_, hst, _⟩
    · exact absurd hlt (by omega)
    · exact hst
  have hnw : ¬ (T < now - lft) := by omega
  refine ⟨hopen, ?_, ?_⟩ <;>
    simp [CBRun.call, CircuitBreaker.call, hopen, hlft, hT, hnw]

/-- Concrete witness for `circuit_breaker_trip`: threshold 2, timeout 10, two
failing calls at times 0 and 1, probe call at time 5. -/
theorem circuit_breaker_trip_witness :
    (1 ≤ 2 ∧ 2 ≤ ([((0 : Int), false), ((1 : Int), false)]).length ∧
      (∀ c ∈ [((0 : Int), false), ((1 : Int), false)], c.2 = false) ∧
      ((CBRun.init 2 10).run [((0 : Int), false), ((1 : Int), false)]).cb.last_failure_time
        = some 1 ∧
      (5 : Int) - 1 < 10) ∧
    (((CBRun.init 2 10).run [((0 : Int), false), ((1 : Int), false)]).cb.state
        = CBState.opened ∧
      (((CBRun.init 2 10).run [((0 : Int), false), ((1 : Int), false)]).call 5 true).1
        = CallOutcome.rejected ∧
      (((CBRun.init 2 10).run [((0 : Int), false), ((1 : Int), false)]).call 5 true).2.opCalls
        = ((CBRun.init 2 10).run [((0 : Int), false), ((1 : Int), false)]).opCalls) :=
  ⟨⟨by decide, by decide, by decide, by decide, by decide⟩,
    circuit_breaker_trip 2 10 [((0 : Int), false), ((1 : Int), false)] 5 1 true
      (by decide) (by decide) (by decide) (by decide) (by decide)⟩

/-- **C3** (counterexample): the claim asserts that once the elapsed time since
`lastFailureTime` is *at least* `resetTimeout`, the next call is attempted.
The code transitions to HALF_OPEN only when the elapsed time is *strictly
greater* (`time.time() - self.last_failure_time > self.timeout`).  With
`failureThreshold = 1`, `resetTimeout = 10`, one failing call at time 0 (so the
breaker is OPEN with `lastFailureTime = 0`), a call at time 10 — elapsed time
exactly `resetTimeout` — is rejected without invoking the now-succeeding
operation, and the state stays OPEN. -/
theorem circuit_breaker_recovery_cex :
    (((CBRun.init 1 10).call 0 false).2.cb.state = CBState.opened ∧
      ((CBRun.init 1 10).call 0 false).2.cb.last_failure_time = some 0 ∧
      (10 : Int) - 0 ≥ 10) ∧
    ((((CBRun.init 1 10).call 0 false).2.call 10 true).1 = CallOutcome.rejected ∧
      (((CBRun.init 1 10).call 0 false).2.call 10 true).2.cb.state = CBState.opened ∧
      (((CBRun.init 1 10).call 0 false).2.call 10 true).2.opCalls
        = ((CBRun.init 1 10).call 0 false).2.opCalls) := by
  decide

/-- **C3** (amended): for every circuit breaker whose state has been OPEN for
*strictly more* than `resetTimeout` (`now - lastFailureTime > resetTimeout`),
the next `call()` is attempted against the underlying operation (the
invocation count increases — the breaker moves through HALF_OPEN rather than
rejecting); if that attempt succeeds, the state becomes CLOSED and the failure
count is 0. -/
theorem circuit_breaker_recovery (cb : CircuitBreaker) (m : Nat) (now lft : Int)
    (hst : cb.state = CBState.opened)
    (hlft : cb.last_failure_time = some lft)
    (hwin : now - lft > cb.timeout) :
    ((CBRun.mk cb m).call now true).1 = CallOutcome.succeeded ∧
    ((CBRun.mk cb m).call now true).2.opCalls = m + 1 ∧
    ((CBRun.mk cb m).call now true).2.cb.state = CBState.closed ∧
    ((CBRun.mk cb m).call now true).2.cb.failures = 0 := by
  refine ⟨?_, ?_, ?_, ?_⟩ <;>
    simp [CBRun.call, CircuitBreaker.call, CircuitBreaker.attempt, hst, hlft, hwin]

/-- Concrete witness for `circuit_breaker_recovery`: a tripped breaker
(threshold 1, timeout 10, failure recorded at time 0) probed at time 11. -/
theorem circuit_breaker_recovery_witness :
    ((CircuitBreaker.mk 1 10 1 (some 0) CBState.opened).state = CBState.opened ∧
      (CircuitBreaker.mk 1 10 1 (some 0) CBState.opened).last_failure_time = some 0 ∧
      (11 : Int) - 0 > (CircuitBreaker.mk 1 10 1 (some 0) CBState.opened).timeout) ∧
    (((CBRun.mk (CircuitBreaker.mk 1 10 1 (some 0) CBState.opened) 5).call 11 true).1
        = CallOutcome.succeeded ∧
      ((CBRun.mk (CircuitBreaker.mk 1 10 1 (some 0) CBState.opened) 5).call 11 true).2.opCalls
        = 5 + 1 ∧
      ((CBRun.mk (CircuitBreaker.mk 1 10 1 (some 0) CBState.opened) 5).call 11 true).2.cb.state
        = CBState.closed ∧
      ((CBRun.mk (CircuitBreaker.mk 1 10 1 (some 0) CBState.opened) 5).call 11 true).2.cb.failures
        = 0) :=
  ⟨⟨by decide, by decide, by decide⟩,
    circuit_breaker_recovery (CircuitBreaker.mk 1 10 1 (some 0) CBState.opened) 5 11 0
      (by decide) (by decide) (by decide)⟩

/-- **C4** (counterexample): the claim asserts that, in the CLOSED state, a
successful call resets `failures` to 0.  In `CircuitBreaker.call` the counter
is reset on success only from HALF_OPEN.  With threshold 5: two failing calls
then a successful one leave `failures = 2` (not 0, state still CLOSED); and
with successes interleaved every two failures, the non-consecutive failures
accumulate to the threshold and trip the breaker. -/
theorem closed_success_reset_cex :
    ((CBRun.init 5 10).run
        [((0 : Int), false), ((1 : Int), false), ((2 : Int), true)]).cb.state
      = CBState.closed ∧
    ((CBRun.init 5 10).run
        [((0 : Int), false), ((1 : Int), false), ((2 : Int), true)]).cb.failures = 2 ∧
    ((CBRun.init 5 10).run
        [((0 : Int), false), ((1 : Int), false), ((2 : Int), true), ((3 : Int), false),
          ((4 : Int), true), ((5 : Int), false), ((6 : Int), false)]).cb.state
      = CBState.opened := by
  decide

end ApiReliability

namespace ResilientPipeline

/-- Result of one `process_with_circuit_breaker` call
(`resilient_pipeline.py`): `blocked` = returned `None` without invoking the
operation; `ok` = operation invoked and its result returned; `raised` = the
operation's exception was re-raised. -/
inductive PipeOutcome where
  | blocked
  | ok
  | raised
deriving DecidableEq, Repr

/-- The ad hoc circuit-breaker attributes of `ResilientDataPipeline`.
Both attributes are created lazily (`hasattr` / `getattr` with default), hence
the `Option` types. -/
structure PipelineCB where
  circuit_breaker_failures : Option Nat
  circuit_breaker_opened : Option Int
deriving DecidableEq, Repr

/-- `max_failures = 3` in `process_with_circuit_breaker`. -/
def max_failures : Nat := 3

/-- `reset_timeout = 30` seconds in `process_with_circuit_breaker`. -/
def reset_timeout : Int := 30

/-- `ResilientDataPipeline.process_with_circuit_breaker(operation_func, ...)`
at wall-clock time `now`.  If the failure counter exists and has reached
`max_failures`, the call is blocked (returns `None`) while the reset window is
open, and otherwise the counter is reset before attempting.  On success the
counter (if it exists) is reset to 0; on an exception it is incremented
(created at 0 first if absent) and the opened-time is stamped at the
threshold, then the exception is re-raised. -/
def process_with_circuit_breaker (p : PipelineCB) (now : Int) (opSucceeds : Bool) :
    PipeOutcome × PipelineCB :=
  let gate : Option PipelineCB :=
    match p.circuit_breaker_failures with
    | some k =>
        if k ≥ max_failures then
          if now - p.circuit_breaker_opened.getD 0 < reset_timeout then none
          else some { p with circuit_breaker_failures := some 0 }
        else some p
    | none => some p
  match gate with
  | none => (PipeOutcome.blocked, p)
  | some p1 =>
      if opSucceeds then
        (PipeOutcome.ok,
          match p1.circuit_breaker_failures with
          | some _ => { p1 with circuit_breaker_failures := some 0 }
          | none => p1)
      else
        let k := p1.circuit_breaker_failures.getD 0 + 1
        let p2 := { p1 with circuit_breaker_failures := some k }
        if k ≥ max_failures then
          (PipeOutcome.raised, { p2 with circuit_breaker_opened := some now })
        else
          (PipeOutcome.raised, p2)

/-- Behaviour of one invocation of `self.client.upload_csv_to_s3(...)` inside
`upload_with_retry`: it returns a truthy result (`ok`), returns a falsy result
(`falsy`), or raises (`exn`).  The source treats `falsy` and `exn` identically
("attempt failed"). -/
inductive AttemptOutcome where
  | ok
  | falsy
  | exn
deriving DecidableEq, Repr

/-- The dead-letter message built after retry exhaustion (the `timestamp`
field is untracked). -/
structure DeadLetterRecord where
  error_type : String
  bucket : String
  file_key : String
  attempts : Nat
deriving DecidableEq, Repr

/-- Observable trace of one `upload_with_retry` call: the boolean return
value, how many times the underlying upload was invoked, the sequence of
back-off sleeps (in seconds, in order), and the dead-letter records sent. -/
structure RetryTrace where
  success : Bool
  invocations : Nat
  sleeps : List Nat
  deadLetters : List DeadLetterRecord
deriving DecidableEq, Repr

/-- The `for attempt in range(max_retries)` loop of
`ResilientDataPipeline.upload_with_retry`, processing the given list of
attempt indices.  `op j` is the outcome of the `j`-th invocation of the
underlying upload.  A truthy result returns `True` immediately; otherwise the
loop sleeps `2 ** attempt` seconds when attempts remain
(`attempt < max_retries - 1`) and continues.  When the index list is
exhausted, one dead-letter record with `attempts = max_retries` is sent and
`False` is returned (exceptions, including a failing dead-letter send, are
swallowed — the function never re-raises). -/
def uploadGo (op : Nat → AttemptOutcome) (bucket file_key : String) (max_retries : Nat) :
    List Nat → RetryTrace
  | [] => RetryTrace.mk false 0 []
      [DeadLetterRecord.mk "UPLOAD_FAILED" bucket file_key max_retries]
  | attempt :: rest =>
      match op attempt with
      | AttemptOutcome.ok => RetryTrace.mk true 1 [] []
      | _ =>
          let tail := uploadGo op bucket file_key max_retries rest
          RetryTrace.mk tail.success (tail.invocations + 1)
            ((if attempt < max_retries - 1 then [2 ^ attempt] else []) ++ tail.sleeps)
            tail.deadLetters

/-- `ResilientDataPipeline.upload_with_retry(dataframe, bucket_name, file_key,
max_retries)`; the dataframe is folded into `op`. -/
def upload_with_retry (op : Nat → AttemptOutcome) (bucket file_key : String)
    (max_retries : Nat) : RetryTrace :=
  uploadGo op bucket file_key max_retries (List.range max_retries)

theorem uploadGo_allFail (op : Nat → AttemptOutcome) (b key : String) (m : Nat)
    (hf : ∀ j, op j ≠ AttemptOutcome.ok) (n a : Nat) :
    (uploadGo op b key m (List.range' a n)).success = false ∧
    (uploadGo op b key m (List.range' a n)).invocations = n ∧
    (uploadGo op b key m (List.range' a n)).deadLetters
      = [DeadLetterRecord.mk "UPLOAD_FAILED" b key m] := by
  induction n generalizing a with
  | zero => simp [uploadGo, List.range']
  | succ n ih =>
      have h := ih (a + 1)
      rw [List.range'_succ]
      cases hop : op a with
      | ok => exact absurd hop (hf a)
      | falsy => simp [uploadGo, hop, h.1, h.2.1, h.2.2]
      | exn => simp [uploadGo, hop, h.1, h.2.1, h.2.2]

/-- **C2** (claim): for every `maxRetries = n ≥ 1` and every underlying upload
operation that fails (raises or returns a falsy result) on every invocation,
`upload_with_retry` invokes the operation exactly `n` times, returns `False`
(re-raising nothing — the embedding is a total function), and sends exactly
one dead-letter record whose `attempts` field equals `n`. -/
theorem retry_exhaustion (op : Nat → AttemptOutcome) (b key : String) (n : Nat)
    (hn : 1 ≤ n) (hf : ∀ j, op j ≠ AttemptOutcome.ok) :
    (upload_with_retry op b key n).success = false ∧
    (upload_with_retry op b key n).invocations = n ∧
    (upload_with_retry op b key n).deadLetters
      = [DeadLetterRecord.mk "UPLOAD_FAILED" b key n] := by
  unfold upload_with_retry
  rw [List.range_eq_range']
  exact uploadGo_allFail op b key n hf n 0

/-- Concrete witness for `retry_exhaustion`: an always-raising upload with
`maxRetries = 3`. -/
theorem retry_exhaustion_witness :
    (1 ≤ 3 ∧ (∀ j : Nat, (fun _ : Nat => AttemptOutcome.exn) j ≠ AttemptOutcome.ok)) ∧
    ((upload_with_retry (fun _ => AttemptOutcome.exn) "bucket" "key" 3).success = false ∧
      (upload_with_retry (fun _ => AttemptOutcome.exn) "bucket" "key" 3).invocations = 3 ∧
      (upload_with_retry (fun _ => AttemptOutcome.exn) "bucket" "key" 3).deadLetters
        = [DeadLetterRecord.mk "UPLOAD_FAILED" "bucket" "key" 3]) :=
  ⟨⟨by decide, fun j => by simp⟩,
    retry_exhaustion (fun _ => AttemptOutcome.exn) "bucket" "key" 3 (by decide)
      (fun j => by simp)⟩

theorem uploadGo_succeedsAt (op : Nat → AttemptOutcome) (b key : String) (m : Nat)
    (kf : Nat) : ∀ (n a : Nat), a + n = m → kf < n →
    (∀ j, j < kf → op (a + j) ≠ AttemptOutcome.ok) → op (a + kf) = AttemptOutcome.ok →
    uploadGo op b key m (List.range' a n)
      = RetryTrace.mk true (kf + 1) ((List.range' a kf).map (fun j => 2 ^ j)) [] := by
  induction kf with
  | zero =>
      intro n a hm hk hfail hok
      match n, hk with
      | n + 1, _ =>
        rw [List.range'_succ]
        have hop : op a = AttemptOutcome.ok := by simpa using hok
        simp [uploadGo, hop, List.range']
  | succ kf ih =>
      intro n a hm hk hfail hok
      match n, hk with
      | n + 1, _ =>
        rw [List.range'_succ]
        have hop : op a ≠ AttemptOutcome.ok := by
          have := hfail 0 (Nat.succ_pos kf)
          simpa using this
        have htail := ih n (a + 1) (by omega) (by omega)
          (fun j hj => by
            have := hfail (j + 1) (by omega)
            simpa [Nat.add_assoc, Nat.add_comm 1 j] using this)
          (by
            have : a + 1 + kf = a + (kf + 1) := by omega
            rw [this]; exact hok)
        have hlt : a < m - 1 := by omega
        cases hop2 : op a with
        | ok => exact absurd hop2 hop
        | falsy =>
            rw [List.range'_succ, List.map_cons]
            simp [uploadGo, hop2, htail, hlt]
        | exn =>
            rw [List.range'_succ, List.map_cons]
            simp [uploadGo, hop2, htail, hlt]

/-- **C5** (claim): for every `maxRetries = n` and every underlying upload
operation that fails on its first `k < n` invocations and succeeds on
invocation `k+1`, `upload_with_retry` returns `True` after exactly `k+1`
invocations, sends no dead-letter record, and after each failed attempt
number `a` (counting from 0) sleeps `baseDelay * 2^a = 2^a` seconds before the
retry, with no delay after the final (successful) attempt: the sleep sequence
is exactly `[2^0, ..., 2^(k-1)]`. -/
theorem retry_success_path (op : Nat → AttemptOutcome) (b key : String) (n kf : Nat)
    (hk : kf < n) (hfail : ∀ j, j < kf → op j ≠ AttemptOutcome.ok)
    (hok : op kf = AttemptOutcome.ok) :
    upload_with_retry op b key n
      = RetryTrace.mk true (kf + 1) ((List.range kf).map (fun a => 2 ^ a)) [] := by
  unfold upload_with_retry
  rw [List.range_eq_range', List.range_eq_range']
  exact uploadGo_succeedsAt op b key n kf n 0 (by omega) hk
    (fun j hj => by simpa using hfail j hj) (by simpa using hok)

/-- Concrete witness for `retry_success_path`: an upload failing on
invocations 0 and 1 and succeeding on invocation 2, with `maxRetries = 4`. -/
theorem retry_success_path_witness :
    (2 < 4 ∧
      (∀ j, j < 2 →
        (fun j => if j < 2 then AttemptOutcome.exn else AttemptOutcome.ok) j
          ≠ AttemptOutcome.ok) ∧
      (fun j => if j < 2 then AttemptOutcome.exn else AttemptOutcome.ok) 2
        = AttemptOutcome.ok) ∧
    upload_with_retry (fun j => if j < 2 then AttemptOutcome.exn else AttemptOutcome.ok)
        "bucket" "key" 4
      = RetryTrace.mk true (2 + 1) ((List.range 2).map (fun a => 2 ^ a)) [] :=
  ⟨⟨by decide, fun j hj => by simp [hj], by decide⟩,
    retry_success_path (fun j => if j < 2 then AttemptOutcome.exn else AttemptOutcome.ok)
      "bucket" "key" 4 2 (by decide) (fun j hj => by simp [hj]) (by decide)⟩

end ResilientPipeline

/-- **C4** (amended): in `CircuitBreaker.call`, a successful call in the CLOSED
state leaves `failures` *unchanged* (and the state CLOSED) — the counter is
reset to 0 only by a successful call in the HALF_OPEN state; so non-consecutive
failures interleaved with successes *do* accumulate toward the threshold.  The
pipeline's `process_with_circuit_breaker`, by contrast, resets its failure
counter to 0 on any successful (non-blocked) call. -/
theorem success_reset_behaviour
    (cb1 cb2 : ApiReliability.CircuitBreaker) (p : ResilientPipeline.PipelineCB)
    (now1 now2 now3 : Int) (k : Nat)
    (h1 : cb1.state = ApiReliability.CBState.closed)
    (h2 : cb2.state = ApiReliability.CBState.halfOpen)
    (h3 : p.circuit_breaker_failures = some k)
    (h4 : (ResilientPipeline.process_with_circuit_breaker p now3 true).1
        = ResilientPipeline.PipeOutcome.ok) :
    ((cb1.call now1 true).2.failures = cb1.failures ∧
      (cb1.call now1 true).2.state = ApiReliability.CBState.closed) ∧
    ((cb2.call now2 true).2.failures = 0 ∧
      (cb2.call now2 true).2.state = ApiReliability.CBState.closed) ∧
    (ResilientPipeline.process_with_circuit_breaker p now3 true).2.circuit_breaker_failures
      = some 0 := by
  refine ⟨⟨?_, ?_⟩, ⟨?_, ?_⟩, ?_⟩
  · simp [ApiReliability.CircuitBreaker.call, ApiReliability.CircuitBreaker.attempt, h1]
  · simp [ApiReliability.CircuitBreaker.call, ApiReliability.CircuitBreaker.attempt, h1]
  · simp [ApiReliability.CircuitBreaker.call, ApiReliability.CircuitBreaker.attempt, h2]
  · simp [ApiReliability.CircuitBreaker.call, ApiReliability.CircuitBreaker.attempt, h2]
  · by_cases hk : ResilientPipeline.max_failures ≤ k
    · by_cases hw : now3 - p.circuit_breaker_opened.getD 0 < ResilientPipeline.reset_timeout
      · simp [ResilientPipeline.process_with_circuit_breaker, h3, hk, hw] at h4
      · simp [ResilientPipeline.process_with_circuit_breaker, h3, hk, hw]
    · simp [ResilientPipeline.process_with_circuit_breaker, h3, hk]

/-- Concrete witness for `success_reset_behaviour`:  a CLOSED breaker with 2
recorded failures, a HALF_OPEN breaker with 5, and a pipeline with counter 2. -/
theorem success_reset_behaviour_witness :
    ((ApiReliability.CircuitBreaker.mk 5 10 2 (some 0) ApiReliability.CBState.closed).state
        = ApiReliability.CBState.closed ∧
      (ApiReliability.CircuitBreaker.mk 5 10 5 (some 0) ApiReliability.CBState.halfOpen).state
        = ApiReliability.CBState.halfOpen ∧
      (ResilientPipeline.PipelineCB.mk (some 2) (some 0)).circuit_breaker_failures = some 2 ∧
      (ResilientPipeline.process_with_circuit_breaker
          (ResilientPipeline.PipelineCB.mk (some 2) (some 0)) 7 true).1
        = ResilientPipeline.PipeOutcome.ok) ∧
    ((((ApiReliability.CircuitBreaker.mk 5 10 2 (some 0) ApiReliability.CBState.closed).call
            3 true).2.failures
        = (ApiReliability.CircuitBreaker.mk 5 10 2 (some 0)
            ApiReliability.CBState.closed).failures ∧
      ((ApiReliability.CircuitBreaker.mk 5 10 2 (some 0) ApiReliability.CBState.closed).call
            3 true).2.state
        = ApiReliability.CBState.closed) ∧
    (((ApiReliability.CircuitBreaker.mk 5 10 5 (some 0) ApiReliability.CBState.halfOpen).call
            5 true).2.failures = 0 ∧
      ((ApiReliability.CircuitBreaker.mk 5 10 5 (some 0) ApiReliability.CBState.halfOpen).call
            5 true).2.state = ApiReliability.CBState.closed) ∧
    (ResilientPipeline.process_with_circuit_breaker
        (ResilientPipeline.PipelineCB.mk (some 2) (some 0)) 7 true).2.circuit_breaker_failures
      = some 0) :=
  ⟨⟨by decide, by decide, by decide, by decide⟩,
    success_reset_behaviour
      (ApiReliability.CircuitBreaker.mk 5 10 2 (some 0) ApiReliability.CBState.closed)
      (ApiReliability.CircuitBreaker.mk 5 10 5 (some 0) ApiReliability.CBState.halfOpen)
      (ResilientPipeline.PipelineCB.mk (some 2) (some 0)) 3 5 7 2
      (by decide) (by decide) (by decide) (by decide)⟩

namespace Chaos

/-- A reference to a Python callable installed as an operation attribute of
the `CloudDataClient` wrapped by `ChaosFramework`.  Distinct constructors
model distinct function objects, so propositional equality is reference
equality: `delayedUpload`/`corruptUpload` are the wrapper closures created by
an activation (carrying the parameters baked into the closure), and
`failingS3`/`failingSqs` are the unconditionally-raising stubs. -/
inductive Op where
  | uploadCsvToS3
  | downloadCsvFromS3
  | sendMessage
  | receiveMessages
  | delayedUpload (latency_ms : Nat) (end_time : Nat)
  | failingS3
  | failingSqs
  | corruptUpload (probability : Rat)
deriving DecidableEq, Repr

/-- The four swappable operation attributes of the cloud client. -/
structure CloudClient where
  upload_csv_to_s3 : Op
  download_csv_from_s3 : Op
  send_message : Op
  receive_messages : Op
deriving DecidableEq, Repr

/-- One entry of `experiments_log` as appended by `log_experiment`
(the free-text description and the timestamp are untracked). -/
structure LogEntry where
  experiment_type : String
  success : Bool
  duration : Nat
deriving DecidableEq, Repr

/-- The mutable state of a `ChaosFramework` instance.  Attributes that are
created with `hasattr`/`delattr` discipline (`_original_upload_for_latency`,
`_latency_end_time`, the S3/SQS restoration attributes) are `Option`s with
`none` for "absent"; `_original_upload_method` is initialised to `None` in
`__init__`.  The three S3 restoration attributes (`_original_s3_upload`,
`_original_s3_download`, `_s3_restore_time`) are always assigned and deleted
together in the source, so they are bundled as one optional triple, and
likewise for SQS. -/
structure ChaosFramework where
  client : CloudClient
  experiments_log : List LogEntry
  current_duration : Nat
  original_upload_for_latency : Option Op
  latency_end_time : Option Nat
  original_upload_method : Option Op
  s3_saved : Option (Op × Op × Nat)
  sqs_saved : Option (Op × Op × Nat)
deriving DecidableEq, Repr

/-- `ChaosFramework.__init__`: a fresh framework over client `c`. -/
def ChaosFramework.init (c : CloudClient) : ChaosFramework :=
  { client := c
    experiments_log := []
    current_duration := 0
    original_upload_for_latency := none
    latency_end_time := none
    original_upload_method := none
    s3_saved := none
    sqs_saved := none }

/-- `ChaosFramework.log_experiment(experiment_type, description, success)`:
appends one entry recording the current duration. -/
def ChaosFramework.log_experiment (f : ChaosFramework) (experiment_type : String)
    (success : Bool) : ChaosFramework :=
  { f with experiments_log :=
      f.experiments_log ++ [LogEntry.mk experiment_type success f.current_duration] }

/-- `ChaosFramework.network_latency(duration, latency_ms)` at wall-clock time
`now`.  The original upload method is saved only when no saved reference
exists (`if not hasattr(...)`).  `setupError` models an exception raised at
the start of the `try` block; the `except` branch logs a failed entry and
returns `False` without swapping anything. -/
def ChaosFramework.network_latency (f : ChaosFramework) (now duration latency_ms : Nat)
    (setupError : Bool) : Bool × ChaosFramework :=
  let f1 := { f with current_duration := duration }
  if setupError then
    (false, f1.log_experiment "NETWORK_LATENCY" false)
  else
    let f2 :=
      match f1.original_upload_for_latency with
      | none => { f1 with original_upload_for_latency := some f1.client.upload_csv_to_s3 }
      | some _ => f1
    let endTime := now + duration
    let f3 := { f2 with
      client := { f2.client with upload_csv_to_s3 := Op.delayedUpload latency_ms endTime },
      latency_end_time := some endTime }
    (true, f3.log_experiment "NETWORK_LATENCY" true)

/-- `ChaosFramework.stop_network_latency`: restores the saved original and
deletes the bookkeeping attributes; a no-op when nothing was saved. -/
def ChaosFramework.stop_network_latency (f : ChaosFramework) : ChaosFramework :=
  match f.original_upload_for_latency with
  | some orig =>
      { f with client := { f.client with upload_csv_to_s3 := orig },
               original_upload_for_latency := none,
               latency_end_time := none }
  | none => f

/-- `ChaosFramework.service_failure(service_type, failure_duration)` at time
`now`: for `"S3"` the upload/download operations are replaced by raising
stubs and the previous references are recorded (reading them *before* the
swap, but with no guard against overwriting an earlier record); symmetrically
for `"SQS"`.  Any other service name swaps nothing. -/
def ChaosFramework.service_failure (f : ChaosFramework) (now : Nat)
    (service_type : String) (failure_duration : Nat) (setupError : Bool) :
    Bool × ChaosFramework :=
  let f1 := { f with current_duration := failure_duration }
  if setupError then
    (false, f1.log_experiment "SERVICE_FAILURE" false)
  else
    let f2 :=
      if service_type = "S3" then
        { f1 with
          client :=
            { f1.client with
              upload_csv_to_s3 := Op.failingS3,
              download_csv_from_s3 := Op.failingS3 },
          s3_saved := some (f1.client.upload_csv_to_s3, f1.client.download_csv_from_s3,
            now + failure_duration) }
      else if service_type = "SQS" then
        { f1 with
          client :=
            { f1.client with
              send_message := Op.failingSqs,
              receive_messages := Op.failingSqs },
          sqs_saved := some (f1.client.send_message, f1.client.receive_messages,
            now + failure_duration) }
      else f1
    (true, f2.log_experiment "SERVICE_FAILURE" true)

/-- `ChaosFramework.restore_services`: restores and clears the S3 record if
present, then the SQS record if present; total (a no-op when nothing was
swapped). -/
def ChaosFramework.restore_services (f : ChaosFramework) : ChaosFramework :=
  let f1 :=
    match f.s3_saved with
    | some t =>
        { f with
          client := { f.client with upload_csv_to_s3 := t.1, download_csv_from_s3 := t.2.1 },
          s3_saved := none }
    | none => f
  match f1.sqs_saved with
  | some t =>
      { f1 with
        client := { f1.client with send_message := t.1, receive_messages := t.2.1 },
        sqs_saved := none }
  | none => f1

/-- `ChaosFramework.high_cpu_load(duration, load_percent)`: only logs (its
busy-loop thread touches no framework state). -/
def ChaosFramework.high_cpu_load (f : ChaosFramework) (duration load_percent : Nat)
    (setupError : Bool) : Bool × ChaosFramework :=
  let f1 := { f with current_duration := duration }
  if setupError then
    (false, f1.log_experiment "HIGH_CPU_LOAD" false)
  else
    (true, f1.log_experiment "HIGH_CPU_LOAD" true)

/-- `ChaosFramework.memory_pressure(duration, memory_mb)`: allocates, sleeps
and frees; `setupError` models a `MemoryError` during allocation, which is
caught and logged as a failed entry. -/
def ChaosFramework.memory_pressure (f : ChaosFramework) (duration memory_mb : Nat)
    (setupError : Bool) : Bool × ChaosFramework :=
  let f1 := { f with current_duration := duration }
  if setupError then
    (false, f1.log_experiment "MEMORY_PRESSURE" false)
  else
    (true, f1.log_experiment "MEMORY_PRESSURE" true)

/-- `ChaosFramework.data_corruption(probability)`: saves the original upload
method only when `self._original_upload_method is None`, then installs the
corrupting wrapper.  Does not touch `current_duration` (the source omits
it here). -/
def ChaosFramework.data_corruption (f : ChaosFramework) (probability : Rat)
    (setupError : Bool) : Bool × ChaosFramework :=
  if setupError then
    (false, f.log_experiment "DATA_CORRUPTION" false)
  else
    let f1 :=
      match f.original_upload_method with
      | none => { f with original_upload_method := some f.client.upload_csv_to_s3 }
      | some _ => f
    let f2 := { f1 with
      client := { f1.client with upload_csv_to_s3 := Op.corruptUpload probability } }
    (true, f2.log_experiment "DATA_CORRUPTION" true)

/-- `ChaosFramework.stop_data_corruption`: restores the saved original (a
bound method is truthy) and resets the attribute to `None`; a no-op when it
is `None`. -/
def ChaosFramework.stop_data_corruption (f : ChaosFramework) : ChaosFramework :=
  match f.original_upload_method with
  | some orig =>
      { f with client := { f.client with upload_csv_to_s3 := orig },
               original_upload_method := none }
  | none => f

end Chaos

namespace Chaos

/-- A pandas dataframe, abstracted as a list of rows of optional cells
(`none` = null). -/
abbrev DataFrame := List (List (Option Int))

/-- `random.choice(["nulls", "duplicates", "truncate"])` inside
`corrupt_upload`. -/
inductive CorruptionKind where
  | nulls
  | duplicates
  | truncate
deriving DecidableEq, Repr

/-- The random draws consumed by one invocation of the `corrupt_upload`
wrapper: the `random.random()` gate value (in `[0, 1)`), the chosen
strategy, the per-column `random.random()` draws for the `nulls` strategy,
and the row indices produced by `df.sample` for the `duplicates` strategy. -/
structure CorruptionDraws where
  gate : Rat
  kind : CorruptionKind
  colDraw : Nat → Rat
  sampleIdx : List Nat

/-- The strategy body of `corrupt_upload`: null out each column whose draw is
below 0.2, append a sample of `min(5, len(df))` rows, or truncate to
`max(1, len(df) // 2)` rows. -/
def applyCorruption (d : CorruptionDraws) (df : DataFrame) : DataFrame :=
  match d.kind with
  | CorruptionKind.nulls =>
      df.map (fun row => row.mapIdx (fun j cell =>
        if d.colDraw j < (1 : Rat) / 5 then none else cell))
  | CorruptionKind.duplicates =>
      df ++ (d.sampleIdx.take (min 5 df.length)).map (fun i => df.getD i [])
  | CorruptionKind.truncate =>
      df.take (max 1 (df.length / 2))

/-- One invocation of the `corrupt_upload` closure installed by
`data_corruption(probability)`: when the gate draw is below `probability` the
corruption branch runs and the mutated copy is delegated to the saved
original upload; otherwise the dataframe is passed through unchanged.
Returns (corruption branch taken, dataframe delegated to the original). -/
def corrupt_upload (probability : Rat) (d : CorruptionDraws) (df : DataFrame) :
    Bool × DataFrame :=
  if d.gate < probability then (true, applyCorruption d df) else (false, df)

/-- One randomly drawn experiment of `run_chaos_monkey`, with the parameter
that `random.randint` / `random.uniform` / `random.choice` produced for it. -/
inductive ExperimentChoice where
  | latency (latency_ms : Nat)
  | serviceFailure (service : String)
  | cpuLoad (load_percent : Nat)
  | memoryPressure (memory_mb : Nat)
  | corruption (probability : Rat)

/-- One iteration of the chaos-monkey loop: the drawn experiment, the
wall-clock time at which it starts, and whether its activation raises. -/
structure MonkeyStep where
  choice : ExperimentChoice
  now : Nat
  setupError : Bool

/-- The body of one `while` iteration of `run_chaos_monkey`: activate the
chosen experiment with `interval` as its duration, wait, and deactivate when
the kind supports it (`high_cpu_load` and `memory_pressure` self-terminate). -/
def monkeyStep (interval : Nat) (f : ChaosFramework) (s : MonkeyStep) : ChaosFramework :=
  match s.choice with
  | ExperimentChoice.latency ms =>
      ChaosFramework.stop_network_latency (f.network_latency s.now interval ms s.setupError).2
  | ExperimentChoice.serviceFailure svc =>
      ChaosFramework.restore_services (f.service_failure s.now svc interval s.setupError).2
  | ExperimentChoice.cpuLoad l => (f.high_cpu_load interval l s.setupError).2
  | ExperimentChoice.memoryPressure mb => (f.memory_pressure interval mb s.setupError).2
  | ExperimentChoice.corruption p =>
      ChaosFramework.stop_data_corruption (f.data_corruption p s.setupError).2

/-- `ChaosFramework.run_chaos_monkey(duration, interval)`: the sequence of
iterations the `while time.time() - start_time < duration` loop performs is
given as the list `sched`; the function returns `experiment_count` (one per
iteration, incremented unconditionally) together with the final state. -/
def run_chaos_monkey (f : ChaosFramework) (interval : Nat) :
    List MonkeyStep → Nat × ChaosFramework
  | [] => (0, f)
  | s :: rest =>
      let r := run_chaos_monkey (monkeyStep interval f s) interval rest
      (r.1 + 1, r.2)

/-- The log entry that the activation in step `s` appends, given the
experiment interval and the `current_duration` value before the step
(`data_corruption` logs the stale `current_duration`; every other activation
sets it to its own duration first). -/
def stepEntry (interval cd : Nat) (s : MonkeyStep) : LogEntry :=
  match s.choice with
  | ExperimentChoice.latency _ => LogEntry.mk "NETWORK_LATENCY" (!s.setupError) interval
  | ExperimentChoice.serviceFailure _ => LogEntry.mk "SERVICE_FAILURE" (!s.setupError) interval
  | ExperimentChoice.cpuLoad _ => LogEntry.mk "HIGH_CPU_LOAD" (!s.setupError) interval
  | ExperimentChoice.memoryPressure _ => LogEntry.mk "MEMORY_PRESSURE" (!s.setupError) interval
  | ExperimentChoice.corruption _ => LogEntry.mk "DATA_CORRUPTION" (!s.setupError) cd

/-- The value of `current_duration` after step `s`. -/
def stepDuration (interval cd : Nat) (s : MonkeyStep) : Nat :=
  match s.choice with
  | ExperimentChoice.corruption _ => cd
  | _ => interval

/-- The experiment-type string logged for a choice. -/
def choiceName : ExperimentChoice → String
  | ExperimentChoice.latency _ => "NETWORK_LATENCY"
  | ExperimentChoice.serviceFailure _ => "SERVICE_FAILURE"
  | ExperimentChoice.cpuLoad _ => "HIGH_CPU_LOAD"
  | ExperimentChoice.memoryPressure _ => "MEMORY_PRESSURE"
  | ExperimentChoice.corruption _ => "DATA_CORRUPTION"

/-- The log entries appended by a chaos-monkey schedule, threading
`current_duration` through the steps. -/
def monkeyEntries (interval cd : Nat) : List MonkeyStep → List LogEntry
  | [] => []
  | s :: rest => stepEntry interval cd s :: monkeyEntries interval (stepDuration interval cd s) rest

end Chaos

namespace Chaos

/-- **C6** (claim): for every fault injector (latency, data corruption,
service failure), calling its deactivation method twice in a row, or calling
it with no prior activation, never raises (each deactivation is a total
function — every attribute access in the source is guarded) and leaves the
dependency's operation attributes equal to the original references they had
before any activation.  With no prior activation the deactivations are exact
no-ops; after an activation, one or two deactivations restore the whole
client to its pristine state `c`. -/
theorem fault_deactivation_idempotent (c : CloudClient) (now dur ms : Nat) (p : Rat)
    (sdur : Nat) :
    ChaosFramework.stop_network_latency (ChaosFramework.init c) = ChaosFramework.init c ∧
    ChaosFramework.stop_data_corruption (ChaosFramework.init c) = ChaosFramework.init c ∧
    ChaosFramework.restore_services (ChaosFramework.init c) = ChaosFramework.init c ∧
    (ChaosFramework.stop_network_latency
        ((ChaosFramework.init c).network_latency now dur ms false).2).client = c ∧
    (ChaosFramework.stop_network_latency (ChaosFramework.stop_network_latency
        ((ChaosFramework.init c).network_latency now dur ms false).2)).client = c ∧
    (ChaosFramework.stop_data_corruption
        ((ChaosFramework.init c).data_corruption p false).2).client = c ∧
    (ChaosFramework.stop_data_corruption (ChaosFramework.stop_data_corruption
        ((ChaosFramework.init c).data_corruption p false).2)).client = c ∧
    (ChaosFramework.restore_services
        ((ChaosFramework.init c).service_failure now "S3" sdur false).2).client = c ∧
    (ChaosFramework.restore_services (ChaosFramework.restore_services
        ((ChaosFramework.init c).service_failure now "S3" sdur false).2)).client = c ∧
    (ChaosFramework.restore_services
        ((ChaosFramework.init c).service_failure now "SQS" sdur false).2).client = c ∧
    (ChaosFramework.restore_services (ChaosFramework.restore_services
        ((ChaosFramework.init c).service_failure now "SQS" sdur false).2)).client = c :=
  ⟨rfl, rfl, rfl, rfl, rfl, rfl, rfl, rfl, rfl, rfl, rfl⟩

end Chaos

namespace Chaos

/-- **C7** (claim): activating `data_corruption(p)` installs the corrupting
wrapper (which delegates to the saved pristine original).  With
`probability = 1.0` every invocation of the wrapper takes the corruption
branch (any `random.random()` gate draw lies in `[0, 1)`, hence below 1) and
delegates the corrupted payload; with `probability = 0.0` no invocation
corrupts and the payload is passed through to the original upload
field-for-field identical to the input. -/
theorem data_corruption_extremes (c : CloudClient) (d : CorruptionDraws) (df : DataFrame)
    (h0 : 0 ≤ d.gate) (h1 : d.gate < 1) :
    ((ChaosFramework.init c).data_corruption 1 false).2.client.upload_csv_to_s3
      = Op.corruptUpload 1 ∧
    ((ChaosFramework.init c).data_corruption 0 false).2.client.upload_csv_to_s3
      = Op.corruptUpload 0 ∧
    ((ChaosFramework.init c).data_corruption 1 false).2.original_upload_method
      = some c.upload_csv_to_s3 ∧
    corrupt_upload 1 d df = (true, applyCorruption d df) ∧
    corrupt_upload 0 d df = (false, df) := by
  refine ⟨rfl, rfl, rfl, ?_, ?_⟩
  · rw [corrupt_upload, if_pos h1]
  · rw [corrupt_upload, if_neg (by exact not_lt.mpr h0)]

/-- Concrete witness for `data_corruption_extremes`: a gate draw of 1/2, the
truncate strategy, and a two-row one-column dataframe. -/
theorem data_corruption_extremes_witness :
    ((0 : Rat) ≤ (CorruptionDraws.mk (1 / 2) CorruptionKind.truncate (fun _ => 0) []).gate ∧
      (CorruptionDraws.mk (1 / 2) CorruptionKind.truncate (fun _ => 0) []).gate < 1) ∧
    (((ChaosFramework.init (CloudClient.mk Op.uploadCsvToS3 Op.downloadCsvFromS3
          Op.sendMessage Op.receiveMessages)).data_corruption 1 false).2.client.upload_csv_to_s3
        = Op.corruptUpload 1 ∧
      ((ChaosFramework.init (CloudClient.mk Op.uploadCsvToS3 Op.downloadCsvFromS3
          Op.sendMessage Op.receiveMessages)).data_corruption 0 false).2.client.upload_csv_to_s3
        = Op.corruptUpload 0 ∧
      ((ChaosFramework.init (CloudClient.mk Op.uploadCsvToS3 Op.downloadCsvFromS3
          Op.sendMessage Op.receiveMessages)).data_corruption 1 false).2.original_upload_method
        = some Op.uploadCsvToS3 ∧
      corrupt_upload 1 (CorruptionDraws.mk (1 / 2) CorruptionKind.truncate (fun _ => 0) [])
          [[some 1], [some 2]]
        = (true, applyCorruption
            (CorruptionDraws.mk (1 / 2) CorruptionKind.truncate (fun _ => 0) [])
            [[some 1], [some 2]]) ∧
      corrupt_upload 0 (CorruptionDraws.mk (1 / 2) CorruptionKind.truncate (fun _ => 0) [])
          [[some 1], [some 2]]
        = (false, [[some 1], [some 2]])) :=
  ⟨⟨by norm_num, by norm_num⟩,
    data_corruption_extremes
      (CloudClient.mk Op.uploadCsvToS3 Op.downloadCsvFromS3 Op.sendMessage Op.receiveMessages)
      (CorruptionDraws.mk (1 / 2) CorruptionKind.truncate (fun _ => 0) [])
      [[some 1], [some 2]] (by norm_num) (by norm_num)⟩

/-- **C8** (claim): `service_failure("S3")` replaces only the S3 operations
(upload and download become the raising stub) and leaves the SQS operations
untouched, and symmetrically for `"SQS"`; `restore_services` restores every
replaced operation to its original reference and clears the internal record
of which operations were swapped — after activating one group, or both groups
in either order, a restore returns the whole client to `c` with both records
cleared. -/
theorem service_failure_frame (c : CloudClient) (now1 now2 sdur1 sdur2 : Nat) :
    (((ChaosFramework.init c).service_failure now1 "S3" sdur1 false).2.client.upload_csv_to_s3
        = Op.failingS3 ∧
      ((ChaosFramework.init c).service_failure now1 "S3" sdur1 false).2.client.download_csv_from_s3
        = Op.failingS3 ∧
      ((ChaosFramework.init c).service_failure now1 "S3" sdur1 false).2.client.send_message
        = c.send_message ∧
      ((ChaosFramework.init c).service_failure now1 "S3" sdur1 false).2.client.receive_messages
        = c.receive_messages) ∧
    (((ChaosFramework.init c).service_failure now1 "SQS" sdur1 false).2.client.send_message
        = Op.failingSqs ∧
      ((ChaosFramework.init c).service_failure now1 "SQS" sdur1 false).2.client.receive_messages
        = Op.failingSqs ∧
      ((ChaosFramework.init c).service_failure now1 "SQS" sdur1 false).2.client.upload_csv_to_s3
        = c.upload_csv_to_s3 ∧
      ((ChaosFramework.init c).service_failure now1 "SQS" sdur1 false).2.client.download_csv_from_s3
        = c.download_csv_from_s3) ∧
    ((ChaosFramework.restore_services
        ((ChaosFramework.init c).service_failure now1 "S3" sdur1 false).2).client = c ∧
      (ChaosFramework.restore_services
        ((ChaosFramework.init c).service_failure now1 "S3" sdur1 false).2).s3_saved = none ∧
      (ChaosFramework.restore_services
        ((ChaosFramework.init c).service_failure now1 "S3" sdur1 false).2).sqs_saved = none) ∧
    ((ChaosFramework.restore_services
        ((ChaosFramework.init c).service_failure now1 "SQS" sdur1 false).2).client = c ∧
      (ChaosFramework.restore_services
        ((ChaosFramework.init c).service_failure now1 "SQS" sdur1 false).2).s3_saved = none ∧
      (ChaosFramework.restore_services
        ((ChaosFramework.init c).service_failure now1 "SQS" sdur1 false).2).sqs_saved = none) ∧
    ((ChaosFramework.restore_services
        (((ChaosFramework.init c).service_failure now1 "S3" sdur1 false).2.service_failure
          now2 "SQS" sdur2 false).2).client = c ∧
      (ChaosFramework.restore_services
        (((ChaosFramework.init c).service_failure now1 "S3" sdur1 false).2.service_failure
          now2 "SQS" sdur2 false).2).s3_saved = none ∧
      (ChaosFramework.restore_services
        (((ChaosFramework.init c).service_failure now1 "S3" sdur1 false).2.service_failure
          now2 "SQS" sdur2 false).2).sqs_saved = none) ∧
    ((ChaosFramework.restore_services
        (((ChaosFramework.init c).service_failure now1 "SQS" sdur1 false).2.service_failure
          now2 "S3" sdur2 false).2).client = c ∧
      (ChaosFramework.restore_services
        (((ChaosFramework.init c).service_failure now1 "SQS" sdur1 false).2.service_failure
          now2 "S3" sdur2 false).2).s3_saved = none ∧
      (ChaosFramework.restore_services
        (((ChaosFramework.init c).service_failure now1 "SQS" sdur1 false).2.service_failure
          now2 "S3" sdur2 false).2).sqs_saved = none) :=
  ⟨⟨rfl, rfl, rfl, rfl⟩, ⟨rfl, rfl, rfl, rfl⟩, ⟨rfl, rfl, rfl⟩, ⟨rfl, rfl, rfl⟩,
    ⟨rfl, rfl, rfl⟩, ⟨rfl, rfl, rfl⟩⟩

end Chaos

namespace Chaos

theorem monkeyStep_log (interval : Nat) (f : ChaosFramework) (s : MonkeyStep) :
    (monkeyStep interval f s).experiments_log
      = f.experiments_log ++ [stepEntry interval f.current_duration s] ∧
    (monkeyStep interval f s).current_duration
      = stepDuration interval f.current_duration s := by
  obtain ⟨choice, now, err⟩ := s
  cases choice with
  | latency ms =>
      cases err <;> cases ho : f.original_upload_for_latency <;>
        simp [monkeyStep, ChaosFramework.network_latency,
          ChaosFramework.stop_network_latency, ChaosFramework.log_experiment,
          stepEntry, stepDuration, ho]
  | serviceFailure svc =>
      cases err <;> cases h1 : f.s3_saved <;> cases h2 : f.sqs_saved <;>
        by_cases h3 : svc = "S3" <;>
        simp [monkeyStep, ChaosFramework.service_failure,
          ChaosFramework.restore_services, ChaosFramework.log_experiment,
          stepEntry, stepDuration, h1, h2, h3] <;>
        by_cases h4 : svc = "SQS" <;>
        simp [h4]
  | cpuLoad l =>
      cases err <;>
        simp [monkeyStep, ChaosFramework.high_cpu_load, ChaosFramework.log_experiment,
          stepEntry, stepDuration]
  | memoryPressure mb =>
      cases err <;>
        simp [monkeyStep, ChaosFramework.memory_pressure, ChaosFramework.log_experiment,
          stepEntry, stepDuration]
  | corruption p =>
      cases err <;> cases ho : f.original_upload_method <;>
        simp [monkeyStep, ChaosFramework.data_corruption,
          ChaosFramework.stop_data_corruption, ChaosFramework.log_experiment,
          stepEntry, stepDuration, ho]

theorem run_chaos_monkey_char (f : ChaosFramework) (interval : Nat)
    (sched : List MonkeyStep) :
    (run_chaos_monkey f interval sched).1 = sched.length ∧
    (run_chaos_monkey f interval sched).2.experiments_log
      = f.experiments_log ++ monkeyEntries interval f.current_duration sched := by
  induction sched generalizing f with
  | nil => simp [run_chaos_monkey, monkeyEntries]
  | cons s rest ih =>
      have hstep := monkeyStep_log interval f s
      have hr := ih (monkeyStep interval f s)
      refine ⟨?_, ?_⟩
      · simp [run_chaos_monkey, hr.1]
      · simp [run_chaos_monkey, monkeyEntries, hr.2, hstep.1, hstep.2, List.append_assoc]

theorem monkeyEntries_success (interval cd : Nat) (sched : List MonkeyStep) :
    (monkeyEntries interval cd sched).map LogEntry.success
      = sched.map (fun s => !s.setupError) := by
  induction sched generalizing cd with
  | nil => rfl
  | cons s rest ih =>
      simp only [monkeyEntries, List.map_cons, ih]
      refine congrArg (fun x => x :: rest.map (fun s => !s.setupError)) ?_
      cases hc : s.choice <;> simp [stepEntry, hc]

theorem monkeyEntries_type (interval cd : Nat) (sched : List MonkeyStep) :
    (monkeyEntries interval cd sched).map LogEntry.experiment_type
      = sched.map (fun s => choiceName s.choice) := by
  induction sched generalizing cd with
  | nil => rfl
  | cons s rest ih =>
      simp only [monkeyEntries, List.map_cons, ih]
      refine congrArg (fun x => x :: rest.map (fun s => choiceName s.choice)) ?_
      cases hc : s.choice <;> simp [stepEntry, choiceName, hc]

/-- **C9** (claim): for every run of `run_chaos_monkey`, a failure while
setting up any single experiment is caught inside that experiment's
activation method, logged as a failed `experiments_log` entry (success flag
false, experiment type matching the chosen kind), and the loop continues:
every scheduled experiment contributes exactly one log entry, no exception
aborts the run (the embedding of the loop is total — the deactivation
methods' attribute accesses are all guarded and cannot raise), and the
function returns the count of experiments executed. -/
theorem chaos_monkey_isolates_failures (f : ChaosFramework) (interval : Nat)
    (sched : List MonkeyStep) :
    (run_chaos_monkey f interval sched).1 = sched.length ∧
    (run_chaos_monkey f interval sched).2.experiments_log
      = f.experiments_log ++ monkeyEntries interval f.current_duration sched ∧
    (monkeyEntries interval f.current_duration sched).map LogEntry.success
      = sched.map (fun s => !s.setupError) ∧
    (monkeyEntries interval f.current_duration sched).map LogEntry.experiment_type
      = sched.map (fun s => choiceName s.choice) :=
  ⟨(run_chaos_monkey_char f interval sched).1,
    (run_chaos_monkey_char f interval sched).2,
    monkeyEntries_success interval f.current_duration sched,
    monkeyEntries_type interval f.current_duration sched⟩

end Chaos

namespace Chaos

/-- A sequence of consecutive `network_latency` activations (each given as
`(now, duration, latency_ms)`) with no intervening deactivation. -/
def activate_latency_list (f : ChaosFramework) (ps : List (Nat × Nat × Nat)) :
    ChaosFramework :=
  ps.foldl (fun g q => (g.network_latency q.1 q.2.1 q.2.2 false).2) f

/-- A sequence of consecutive `data_corruption` activations with no
intervening deactivation. -/
def activate_corruption_list (f : ChaosFramework) (qs : List Rat) : ChaosFramework :=
  qs.foldl (fun g p => (g.data_corruption p false).2) f

theorem network_latency_keeps_saved (f : ChaosFramework) (now dur ms : Nat) (o : Op)
    (h : f.original_upload_for_latency = some o) :
    ((f.network_latency now dur ms false).2).original_upload_for_latency = some o := by
  simp [ChaosFramework.network_latency, ChaosFramework.log_experiment, h]

theorem data_corruption_keeps_saved (f : ChaosFramework) (p : Rat) (o : Op)
    (h : f.original_upload_method = some o) :
    ((f.data_corruption p false).2).original_upload_method = some o := by
  simp [ChaosFramework.data_corruption, ChaosFramework.log_experiment, h]

theorem activate_latency_list_saved (ps : List (Nat × Nat × Nat)) (f : ChaosFramework)
    (o : Op) (h : f.original_upload_for_latency = some o) :
    (activate_latency_list f ps).original_upload_for_latency = some o := by
  induction ps generalizing f with
  | nil => simpa [activate_latency_list] using h
  | cons q rest ih =>
      exact ih (f.network_latency q.1 q.2.1 q.2.2 false).2
        (network_latency_keeps_saved f q.1 q.2.1 q.2.2 o h)

theorem activate_corruption_list_saved (qs : List Rat) (f : ChaosFramework)
    (o : Op) (h : f.original_upload_method = some o) :
    (activate_corruption_list f qs).original_upload_method = some o := by
  induction qs generalizing f with
  | nil => simpa [activate_corruption_list] using h
  | cons p rest ih =>
      exact ih (f.data_corruption p false).2 (data_corruption_keeps_saved f p o h)

theorem stop_network_latency_restores (f : ChaosFramework) (o : Op)
    (h : f.original_upload_for_latency = some o) :
    (ChaosFramework.stop_network_latency f).client.upload_csv_to_s3 = o := by
  simp [ChaosFramework.stop_network_latency, h]

theorem stop_data_corruption_restores (f : ChaosFramework) (o : Op)
    (h : f.original_upload_method = some o) :
    (ChaosFramework.stop_data_corruption f).client.upload_csv_to_s3 = o := by
  simp [ChaosFramework.stop_data_corruption, h]

/-- **C10** (claim): for the latency and data-corruption injectors, activating
again without an intervening deactivation does not overwrite the saved
original reference — `network_latency` saves it only when no saved reference
exists, `data_corruption` only when the saved reference is `None` — so after
any number of consecutive activations (one activation `q`/`p0` followed by
arbitrarily many more) the saved reference is still the pristine original,
and a single deactivation restores the client's upload operation to it.
(With zero activations the deactivations are no-ops and the operation is
trivially still pristine.) -/
theorem repeated_activation_single_restore (c : CloudClient) (q : Nat × Nat × Nat)
    (ps : List (Nat × Nat × Nat)) (p0 : Rat) (qs : List Rat) :
    (activate_latency_list (ChaosFramework.init c) (q :: ps)).original_upload_for_latency
      = some c.upload_csv_to_s3 ∧
    (ChaosFramework.stop_network_latency
        (activate_latency_list (ChaosFramework.init c) (q :: ps))).client.upload_csv_to_s3
      = c.upload_csv_to_s3 ∧
    (ChaosFramework.stop_network_latency
        (activate_latency_list (ChaosFramework.init c) [])).client.upload_csv_to_s3
      = c.upload_csv_to_s3 ∧
    (activate_corruption_list (ChaosFramework.init c) (p0 :: qs)).original_upload_method
      = some c.upload_csv_to_s3 ∧
    (ChaosFramework.stop_data_corruption
        (activate_corruption_list (ChaosFramework.init c) (p0 :: qs))).client.upload_csv_to_s3
      = c.upload_csv_to_s3 ∧
    (ChaosFramework.stop_data_corruption
        (activate_corruption_list (ChaosFramework.init c) [])).client.upload_csv_to_s3
      = c.upload_csv_to_s3 := by
  have hlat : (activate_latency_list (ChaosFramework.init c) (q :: ps)).original_upload_for_latency
      = some c.upload_csv_to_s3 := by
    have hfirst : (((ChaosFramework.init c).network_latency q.1 q.2.1 q.2.2
        false).2).original_upload_for_latency = some c.upload_csv_to_s3 := rfl
    exact activate_latency_list_saved ps _ _ hfirst
  have hcor : (activate_corruption_list (ChaosFramework.init c) (p0 :: qs)).original_upload_method
      = some c.upload_csv_to_s3 := by
    have hfirst : (((ChaosFramework.init c).data_corruption p0
        false).2).original_upload_method = some c.upload_csv_to_s3 := rfl
    exact activate_corruption_list_saved qs _ _ hfirst
  exact ⟨hlat, stop_network_latency_restores _ _ hlat, rfl,
    hcor, stop_data_corruption_restores _ _ hcor, rfl⟩

end Chaos
